import Mathlib

set_option maxRecDepth 100000

/-!
Shallow embedding of the rust-chacha20 repository (files src/chacha20.rs and
src/main.rs) and proofs about it.

Machine integers are modelled as `Nat` with explicit reduction modulo 2^32
where the Rust code wraps (`overflowing_add`, `rotate_left`).  Bytes are
`Nat` values below 2^256 produced by the byte extraction helpers.  A Rust
`Vec` is a `List Nat`.  Indexing that can panic in Rust (a slice access
`key[i]` on a caller-supplied buffer) is modelled with `List.get?` inside
`Option`: `none` models the panic.  Indexing that is always in bounds in
every reachable execution (the 16-word state built by `setup_key`, whose
length is fixed by construction) is modelled with `List.getD` for
convenience; the surrounding proofs only ever use it at indices below the
list length.
-/

namespace Chacha20

/-- Wrapping `u32` addition: `a.overflowing_add(b).0`. -/
def add32 (a b : Nat) : Nat := (a + b) % 4294967296

/-- Bitwise `u32` xor: `a ^ b`. -/
def xor32 (a b : Nat) : Nat := Nat.xor a b

/-- Rotation `u32::rotate_left(n)` for `0 < n < 32`, on values below `2^32`. -/
def rotl32 (a n : Nat) : Nat :=
  Nat.lor (Nat.shiftLeft a n % 4294967296) (Nat.shiftRight a (32 - n))

/-- chacha20.rs `quarter_round`: the four ARX steps, in order. -/
def quarter_round (a b c d : Nat) : Nat × Nat × Nat × Nat :=
  let a := add32 a b
  let d := xor32 d a
  let d := rotl32 d 16
  let c := add32 c d
  let b := xor32 b c
  let b := rotl32 b 12
  let a := add32 a b
  let d := xor32 d a
  let d := rotl32 d 8
  let c := add32 c d
  let b := xor32 b c
  let b := rotl32 b 7
  (a, b, c, d)

/-- chacha20.rs `apply_quarter_round`: reads the four words at indices
`x, y, z, w` of `words_16`, runs `quarter_round` on them, and writes the
results back into a copy of the first 16 words (`clone_from_slice`). -/
def apply_quarter_round (x y z w : Nat) (words_16 : List Nat) : List Nat :=
  let old_a := words_16.getD x 0
  let old_b := words_16.getD y 0
  let old_c := words_16.getD z 0
  let old_d := words_16.getD w 0
  let q := quarter_round old_a old_b old_c old_d
  let ret := words_16.take 16
  ((((ret.set x q.1).set y q.2.1).set z q.2.2.1).set w q.2.2.2)

/-- chacha20.rs `macro_quarter_round!`: the macro expansion, statement by
statement, as in-place reads and writes on the state list. -/
def macro_quarter_round (s : List Nat) (ia ib ic iw : Nat) : List Nat :=
  let s := s.set ia (add32 (s.getD ia 0) (s.getD ib 0))
  let s := s.set iw (xor32 (s.getD iw 0) (s.getD ia 0))
  let s := s.set iw (rotl32 (s.getD iw 0) 16)
  let s := s.set ic (add32 (s.getD ic 0) (s.getD iw 0))
  let s := s.set ib (xor32 (s.getD ib 0) (s.getD ic 0))
  let s := s.set ib (rotl32 (s.getD ib 0) 12)
  let s := s.set ia (add32 (s.getD ia 0) (s.getD ib 0))
  let s := s.set iw (xor32 (s.getD iw 0) (s.getD ia 0))
  let s := s.set iw (rotl32 (s.getD iw 0) 8)
  let s := s.set ic (add32 (s.getD ic 0) (s.getD iw 0))
  let s := s.set ib (xor32 (s.getD ib 0) (s.getD ic 0))
  let s := s.set ib (rotl32 (s.getD ib 0) 7)
  s

/-- Four consecutive bytes of a buffer read as one little-endian 32-bit
word, as `mem::transmute::<[u8; 4], u32>` does on the little-endian
target.  `none` models the Rust index-out-of-bounds panic. -/
def bytes_to_word_le (bytes : List Nat) (idx : Nat) : Option Nat := do
  let b0 ← bytes.get? idx
  let b1 ← bytes.get? (idx + 1)
  let b2 ← bytes.get? (idx + 2)
  let b3 ← bytes.get? (idx + 3)
  pure (b0 + b1 * 256 + b2 * 65536 + b3 * 16777216)

/-- chacha20.rs `setup_key`, with its two copy loops unrolled: constants in
words 0-3, the 32 key bytes as eight little-endian words in 4-11, the
counter in word 12, the 12 nonce bytes as three little-endian words in
13-15.  `none` models the panic on a key or nonce that is too short. -/
def setup_key (key : List Nat) (counter : Nat) (nonce : List Nat) :
    Option (List Nat) := do
  let k0 ← bytes_to_word_le key 0
  let k1 ← bytes_to_word_le key 4
  let k2 ← bytes_to_word_le key 8
  let k3 ← bytes_to_word_le key 12
  let k4 ← bytes_to_word_le key 16
  let k5 ← bytes_to_word_le key 20
  let k6 ← bytes_to_word_le key 24
  let k7 ← bytes_to_word_le key 28
  let n0 ← bytes_to_word_le nonce 0
  let n1 ← bytes_to_word_le nonce 4
  let n2 ← bytes_to_word_le nonce 8
  pure [0x61707865, 0x3320646e, 0x79622d32, 0x6b206574,
        k0, k1, k2, k3, k4, k5, k6, k7, counter, n0, n1, n2]

/-- One iteration of the round loop in chacha20.rs `block_function`: the
eight `macro_quarter_round!` calls (column pattern then diagonal pattern). -/
def inner_block (x : List Nat) : List Nat :=
  macro_quarter_round (macro_quarter_round (macro_quarter_round
    (macro_quarter_round (macro_quarter_round (macro_quarter_round
      (macro_quarter_round (macro_quarter_round x 0 4 8 12)
        1 5 9 13) 2 6 10 14) 3 7 11 15) 0 5 10 15) 1 6 11 12)
    2 7 8 13) 3 4 9 14

/-- The `for _ in 1..=10` loop of `block_function`, generalized over the
iteration count. -/
def iterate_rounds : Nat → List Nat → List Nat
  | 0, x => x
  | n + 1, x => iterate_rounds n (inner_block x)

/-- The final loop of `block_function`: `state[i] += x[i]` (wrapping) for
`i` in `0..16`. -/
def add_state (state x : List Nat) : List Nat :=
  (List.range 16).map fun i => add32 (state.getD i 0) (x.getD i 0)

/-- chacha20.rs `block_function`: set up the state, run 10 double rounds on
a copy, add the original state back in word by word. -/
def block_function (key : List Nat) (counter : Nat) (nonce : List Nat) :
    Option (List Nat) :=
  (setup_key key counter nonce).map fun state =>
    add_state state (iterate_rounds 10 state)

/-- The write loop of chacha20.rs `serialized`: for `i` in `0..n`, store
the four little-endian bytes of `arr32[i]` at positions `4*i .. 4*i+3`. -/
def serialized_loop (arr32 : List Nat) : Nat → List Nat → List Nat
  | 0, s => s
  | n + 1, s =>
    let s := serialized_loop arr32 n s
    let w := arr32.getD n 0
    (((s.set (n * 4) (w % 256)).set
        (n * 4 + 1) (w / 256 % 256)).set
        (n * 4 + 2) (w / 65536 % 256)).set
        (n * 4 + 3) (w / 16777216 % 256)

/-- chacha20.rs `serialized`: allocate `4 * len` zero bytes, then write the
first 16 words little-endian in index order. -/
def serialized (arr32 : List Nat) : List Nat :=
  serialized_loop arr32 16 (List.replicate (arr32.length * 4) 0)

/-- The inner XOR loop of `chacha20_encrypt`: for `k` in `0..count`,
`enc[base + k] = block[k] ^ key_stream[k]`. -/
def xor_write (enc : List Nat) (base : Nat) (block ks : List Nat) :
    Nat → List Nat
  | 0 => enc
  | k + 1 =>
    (xor_write enc base block ks k).set (base + k)
      (xor32 (block.getD k 0) (ks.getD k 0))

/-- The full-block loop of `chacha20_encrypt`: process chunk indices
`j = 0 .. n-1`, each as a whole 64-byte chunk XORed against the keystream
block for counter `counter + j` (wrapping `u32` addition). -/
def full_blocks (key : List Nat) (counter : Nat) (nonce plaintext : List Nat) :
    Nat → List Nat → Option (List Nat)
  | 0, enc => some enc
  | j + 1, enc => do
    let enc ← full_blocks key counter nonce plaintext j enc
    let st ← block_function key ((counter + j) % 4294967296) nonce
    let key_stream := serialized st
    let block := (plaintext.drop (j * 64)).take 64
    pure (xor_write enc (j * 64) block key_stream 64)

/-- chacha20.rs `chacha20_encrypt`: XOR the `len / 64` full chunks against
successive keystream blocks; then, only when `len % 64 != 1`, XOR the
trailing `len % 64` bytes against one more keystream block. -/
def chacha20_encrypt (key : List Nat) (counter : Nat)
    (nonce plaintext : List Nat) : Option (List Nat) := do
  let len := plaintext.length
  let enc ← full_blocks key counter nonce plaintext (len / 64)
    (List.replicate len 0)
  if len % 64 ≠ 1 then
    let j := len / 64
    let st ← block_function key ((counter + j) % 4294967296) nonce
    let key_stream := serialized st
    let block := plaintext.drop (j * 64)
    pure (xor_write enc (j * 64) block key_stream (len % 64))
  else
    pure enc

end Chacha20

namespace MainSrc

/-- main.rs `quarter_round`: identical text to the chacha20.rs one. -/
def quarter_round (a b c d : Nat) : Nat × Nat × Nat × Nat :=
  let a := Chacha20.add32 a b
  let d := Chacha20.xor32 d a
  let d := Chacha20.rotl32 d 16
  let c := Chacha20.add32 c d
  let b := Chacha20.xor32 b c
  let b := Chacha20.rotl32 b 12
  let a := Chacha20.add32 a b
  let d := Chacha20.xor32 d a
  let d := Chacha20.rotl32 d 8
  let c := Chacha20.add32 c d
  let b := Chacha20.xor32 b c
  let b := Chacha20.rotl32 b 7
  (a, b, c, d)

/-- main.rs `apply_quarter_round`: identical text to the chacha20.rs one. -/
def apply_quarter_round (x y z w : Nat) (words_16 : List Nat) : List Nat :=
  let old_a := words_16.getD x 0
  let old_b := words_16.getD y 0
  let old_c := words_16.getD z 0
  let old_d := words_16.getD w 0
  let q := quarter_round old_a old_b old_c old_d
  let ret := words_16.take 16
  ((((ret.set x q.1).set y q.2.1).set z q.2.2.1).set w q.2.2.2)

/-- main.rs `setup_key`: identical text to the chacha20.rs one. -/
def setup_key (key : List Nat) (counter : Nat) (nonce : List Nat) :
    Option (List Nat) := do
  let k0 ← Chacha20.bytes_to_word_le key 0
  let k1 ← Chacha20.bytes_to_word_le key 4
  let k2 ← Chacha20.bytes_to_word_le key 8
  let k3 ← Chacha20.bytes_to_word_le key 12
  let k4 ← Chacha20.bytes_to_word_le key 16
  let k5 ← Chacha20.bytes_to_word_le key 20
  let k6 ← Chacha20.bytes_to_word_le key 24
  let k7 ← Chacha20.bytes_to_word_le key 28
  let n0 ← Chacha20.bytes_to_word_le nonce 0
  let n1 ← Chacha20.bytes_to_word_le nonce 4
  let n2 ← Chacha20.bytes_to_word_le nonce 8
  pure [0x61707865, 0x3320646e, 0x79622d32, 0x6b206574,
        k0, k1, k2, k3, k4, k5, k6, k7, counter, n0, n1, n2]

/-- One iteration of the round loop in main.rs `block_function`: the eight
`apply_quarter_round` reassignments of `working_state`, in order. -/
def inner_block (w : List Nat) : List Nat :=
  apply_quarter_round 3 4 9 14 (apply_quarter_round 2 7 8 13
    (apply_quarter_round 1 6 11 12 (apply_quarter_round 0 5 10 15
      (apply_quarter_round 3 7 11 15 (apply_quarter_round 2 6 10 14
        (apply_quarter_round 1 5 9 13 (apply_quarter_round 0 4 8 12 w)))))))

/-- The `for _ in 1..=10` loop of main.rs `block_function`. -/
def iterate_rounds : Nat → List Nat → List Nat
  | 0, x => x
  | n + 1, x => iterate_rounds n (inner_block x)

/-- The final loop of main.rs `block_function`: `state[i] +=
working_state[i]` (wrapping) for `i` in `0..16`. -/
def add_state (state x : List Nat) : List Nat :=
  (List.range 16).map fun i => Chacha20.add32 (state.getD i 0) (x.getD i 0)

/-- main.rs `block_function`: functional style, rebuilding `working_state`
with `apply_quarter_round` on every quarter round. -/
def block_function (key : List Nat) (counter : Nat) (nonce : List Nat) :
    Option (List Nat) :=
  (setup_key key counter nonce).map fun state =>
    add_state state (iterate_rounds 10 state)

end MainSrc

/-- The little-endian 32-bit word formed by the four bytes of `bytes`
starting at offset `i` (total form, for stating layout properties). -/
def word_le_at (bytes : List Nat) (i : Nat) : Nat :=
  bytes.getD i 0 + bytes.getD (i + 1) 0 * 256 +
    bytes.getD (i + 2) 0 * 65536 + bytes.getD (i + 3) 0 * 16777216

/-- The randomly generated sample ChaCha state of RFC 8439 section 2.2.1,
used by the repository test `test_apply_quarter_round`. -/
def sample_state : List Nat :=
  [0x879531e0, 0xc5ecf37d, 0x516461b1, 0xc9a62f8a, 0x44c20ef3, 0x3390af7f,
   0xd9fc690b, 0x2a5f714c, 0x53372767, 0xb00a5631, 0x974c541a, 0x359e9963,
   0x5c971061, 0x3d631689, 0x2098d9d6, 0x91dbd320]

theorem bytes_to_word_le_eq_of_lt {bytes : List Nat} {i : Nat}
    (h : i + 3 < bytes.length) :
    Chacha20.bytes_to_word_le bytes i = some (word_le_at bytes i) := by
  have h0 : i < bytes.length := by omega
  have h1 : i + 1 < bytes.length := by omega
  have h2 : i + 2 < bytes.length := by omega
  simp [Chacha20.bytes_to_word_le, word_le_at, List.get?_eq_getElem?,
    List.getElem?_eq_getElem, h0, h1, h2, h]

theorem bytes_to_word_le_take {bytes : List Nat} {n i : Nat} (h : i + 3 < n) :
    Chacha20.bytes_to_word_le (bytes.take n) i =
      Chacha20.bytes_to_word_le bytes i := by
  have h0 : i < n := by omega
  have h1 : i + 1 < n := by omega
  have h2 : i + 2 < n := by omega
  simp only [Chacha20.bytes_to_word_le, List.get?_eq_getElem?,
    List.getElem?_take_of_lt h0, List.getElem?_take_of_lt h1,
    List.getElem?_take_of_lt h2, List.getElem?_take_of_lt h]

theorem setup_key_eq_of_le {key nonce : List Nat} {c : Nat}
    (hk : 32 ≤ key.length) (hn : 12 ≤ nonce.length) :
    Chacha20.setup_key key c nonce = some
      [0x61707865, 0x3320646e, 0x79622d32, 0x6b206574,
       word_le_at key 0, word_le_at key 4, word_le_at key 8, word_le_at key 12,
       word_le_at key 16, word_le_at key 20, word_le_at key 24,
       word_le_at key 28, c,
       word_le_at nonce 0, word_le_at nonce 4, word_le_at nonce 8] := by
  simp [Chacha20.setup_key,
    bytes_to_word_le_eq_of_lt (show 0 + 3 < key.length by omega),
    bytes_to_word_le_eq_of_lt (show 4 + 3 < key.length by omega),
    bytes_to_word_le_eq_of_lt (show 8 + 3 < key.length by omega),
    bytes_to_word_le_eq_of_lt (show 12 + 3 < key.length by omega),
    bytes_to_word_le_eq_of_lt (show 16 + 3 < key.length by omega),
    bytes_to_word_le_eq_of_lt (show 20 + 3 < key.length by omega),
    bytes_to_word_le_eq_of_lt (show 24 + 3 < key.length by omega),
    bytes_to_word_le_eq_of_lt (show 28 + 3 < key.length by omega),
    bytes_to_word_le_eq_of_lt (show 0 + 3 < nonce.length by omega),
    bytes_to_word_le_eq_of_lt (show 4 + 3 < nonce.length by omega),
    bytes_to_word_le_eq_of_lt (show 8 + 3 < nonce.length by omega)]

theorem setup_key_take :
    ∀ (key nonce : List Nat) (c : Nat),
      Chacha20.setup_key (key.take 32) c (nonce.take 12) =
        Chacha20.setup_key key c nonce := by
  intro key nonce c
  simp only [Chacha20.setup_key,
    bytes_to_word_le_take (show 0 + 3 < 32 by omega),
    bytes_to_word_le_take (show 4 + 3 < 32 by omega),
    bytes_to_word_le_take (show 8 + 3 < 32 by omega),
    bytes_to_word_le_take (show 12 + 3 < 32 by omega),
    bytes_to_word_le_take (show 16 + 3 < 32 by omega),
    bytes_to_word_le_take (show 20 + 3 < 32 by omega),
    bytes_to_word_le_take (show 24 + 3 < 32 by omega),
    bytes_to_word_le_take (show 28 + 3 < 32 by omega),
    bytes_to_word_le_take (show 0 + 3 < 12 by omega),
    bytes_to_word_le_take (show 4 + 3 < 12 by omega),
    bytes_to_word_le_take (show 8 + 3 < 12 by omega)]

theorem setup_key_length_of_some {key nonce : List Nat} {c : Nat}
    {st : List Nat} (h : Chacha20.setup_key key c nonce = some st) :
    st.length = 16 := by
  simp only [Chacha20.setup_key, Option.bind_eq_bind, Option.pure_def] at h
  rw [Option.bind_eq_some] at h
  obtain ⟨k0, -, h⟩ := h
  rw [Option.bind_eq_some] at h
  obtain ⟨k1, -, h⟩ := h
  rw [Option.bind_eq_some] at h
  obtain ⟨k2, -, h⟩ := h
  rw [Option.bind_eq_some] at h
  obtain ⟨k3, -, h⟩ := h
  rw [Option.bind_eq_some] at h
  obtain ⟨k4, -, h⟩ := h
  rw [Option.bind_eq_some] at h
  obtain ⟨k5, -, h⟩ := h
  rw [Option.bind_eq_some] at h
  obtain ⟨k6, -, h⟩ := h
  rw [Option.bind_eq_some] at h
  obtain ⟨k7, -, h⟩ := h
  rw [Option.bind_eq_some] at h
  obtain ⟨n0, -, h⟩ := h
  rw [Option.bind_eq_some] at h
  obtain ⟨n1, -, h⟩ := h
  rw [Option.bind_eq_some] at h
  obtain ⟨n2, -, h⟩ := h
  simp only [Option.some.injEq] at h
  subst h
  rfl


theorem macro_quarter_round_length (s : List Nat) (ia ib ic iw : Nat) :
    (Chacha20.macro_quarter_round s ia ib ic iw).length = s.length := by
  simp [Chacha20.macro_quarter_round]

theorem apply_quarter_round_length (x y z w : Nat) {s : List Nat}
    (hs : s.length = 16) :
    (Chacha20.apply_quarter_round x y z w s).length = 16 := by
  simp [Chacha20.apply_quarter_round, List.length_set, List.length_take, hs]

theorem macro_eq_apply {s : List Nat} (hs : s.length = 16) {x y z w : Nat}
    (hx : x < 16) (hy : y < 16) (hz : z < 16) (hw : w < 16)
    (hxy : x ≠ y) (hxz : x ≠ z) (hxw : x ≠ w)
    (hyz : y ≠ z) (hyw : y ≠ w) (hzw : z ≠ w) :
    Chacha20.macro_quarter_round s x y z w =
      Chacha20.apply_quarter_round x y z w s := by
  have htake : s.take 16 = s := by rw [← hs]; exact List.take_length s
  have hyx : y ≠ x := hxy.symm
  have hzx : z ≠ x := hxz.symm
  have hwx : w ≠ x := hxw.symm
  have hzy : z ≠ y := hyz.symm
  have hwy : w ≠ y := hyw.symm
  have hwz : w ≠ z := hzw.symm
  apply List.ext_getElem?
  intro n
  by_cases hnx : n = x
  · subst hnx
    simp [Chacha20.macro_quarter_round, Chacha20.apply_quarter_round,
      Chacha20.quarter_round, htake, List.getD_eq_getElem?_getD,
      List.getElem?_set_self, List.getElem?_set_ne, hs, hx, hy, hz, hw,
      hxy, hxz, hxw, hyz, hyw, hzw, hyx, hzx, hwx, hzy, hwy, hwz]
  · by_cases hny : n = y
    · subst hny
      simp [Chacha20.macro_quarter_round, Chacha20.apply_quarter_round,
        Chacha20.quarter_round, htake, List.getD_eq_getElem?_getD,
        List.getElem?_set_self, List.getElem?_set_ne, hs, hx, hy, hz, hw,
        hxy, hxz, hxw, hyz, hyw, hzw, hyx, hzx, hwx, hzy, hwy, hwz]
    · by_cases hnz : n = z
      · subst hnz
        simp [Chacha20.macro_quarter_round, Chacha20.apply_quarter_round,
          Chacha20.quarter_round, htake, List.getD_eq_getElem?_getD,
          List.getElem?_set_self, List.getElem?_set_ne, hs, hx, hy, hz, hw,
          hxy, hxz, hxw, hyz, hyw, hzw, hyx, hzx, hwx, hzy, hwy, hwz]
      · by_cases hnw : n = w
        · subst hnw
          simp [Chacha20.macro_quarter_round, Chacha20.apply_quarter_round,
            Chacha20.quarter_round, htake, List.getD_eq_getElem?_getD,
            List.getElem?_set_self, List.getElem?_set_ne, hs, hx, hy, hz, hw,
            hxy, hxz, hxw, hyz, hyw, hzw, hyx, hzx, hwx, hzy, hwy, hwz]
        · have hxn : x ≠ n := fun hh => hnx hh.symm
          have hyn : y ≠ n := fun hh => hny hh.symm
          have hzn : z ≠ n := fun hh => hnz hh.symm
          have hwn : w ≠ n := fun hh => hnw hh.symm
          simp [Chacha20.macro_quarter_round, Chacha20.apply_quarter_round,
            htake, List.getElem?_set_ne, hxn, hyn, hzn, hwn]

theorem mainsrc_apply_eq :
    MainSrc.apply_quarter_round = Chacha20.apply_quarter_round := rfl

theorem inner_block_eq {s : List Nat} (hs : s.length = 16) :
    Chacha20.inner_block s = MainSrc.inner_block s := by
  have l0 : (Chacha20.apply_quarter_round 0 4 8 12 s).length = 16 :=
    apply_quarter_round_length 0 4 8 12 hs
  have l1 : (Chacha20.apply_quarter_round 1 5 9 13
      (Chacha20.apply_quarter_round 0 4 8 12 s)).length = 16 :=
    apply_quarter_round_length 1 5 9 13 l0
  have l2 : (Chacha20.apply_quarter_round 2 6 10 14
      (Chacha20.apply_quarter_round 1 5 9 13
        (Chacha20.apply_quarter_round 0 4 8 12 s))).length = 16 :=
    apply_quarter_round_length 2 6 10 14 l1
  have l3 : (Chacha20.apply_quarter_round 3 7 11 15
      (Chacha20.apply_quarter_round 2 6 10 14
        (Chacha20.apply_quarter_round 1 5 9 13
          (Chacha20.apply_quarter_round 0 4 8 12 s)))).length = 16 :=
    apply_quarter_round_length 3 7 11 15 l2
  have l4 : (Chacha20.apply_quarter_round 0 5 10 15
      (Chacha20.apply_quarter_round 3 7 11 15
        (Chacha20.apply_quarter_round 2 6 10 14
          (Chacha20.apply_quarter_round 1 5 9 13
            (Chacha20.apply_quarter_round 0 4 8 12 s))))).length = 16 :=
    apply_quarter_round_length 0 5 10 15 l3
  have l5 : (Chacha20.apply_quarter_round 1 6 11 12
      (Chacha20.apply_quarter_round 0 5 10 15
        (Chacha20.apply_quarter_round 3 7 11 15
          (Chacha20.apply_quarter_round 2 6 10 14
            (Chacha20.apply_quarter_round 1 5 9 13
              (Chacha20.apply_quarter_round 0 4 8 12 s)))))).length = 16 :=
    apply_quarter_round_length 1 6 11 12 l4
  have l6 : (Chacha20.apply_quarter_round 2 7 8 13
      (Chacha20.apply_quarter_round 1 6 11 12
        (Chacha20.apply_quarter_round 0 5 10 15
          (Chacha20.apply_quarter_round 3 7 11 15
            (Chacha20.apply_quarter_round 2 6 10 14
              (Chacha20.apply_quarter_round 1 5 9 13
                (Chacha20.apply_quarter_round 0 4 8 12 s))))))).length = 16 :=
    apply_quarter_round_length 2 7 8 13 l5
  unfold Chacha20.inner_block MainSrc.inner_block
  rw [mainsrc_apply_eq]
  rw [macro_eq_apply hs (by decide) (by decide) (by decide) (by decide)
    (by decide) (by decide) (by decide) (by decide) (by decide) (by decide)]
  rw [macro_eq_apply l0 (by decide) (by decide) (by decide) (by decide)
    (by decide) (by decide) (by decide) (by decide) (by decide) (by decide)]
  rw [macro_eq_apply l1 (by decide) (by decide) (by decide) (by decide)
    (by decide) (by decide) (by decide) (by decide) (by decide) (by decide)]
  rw [macro_eq_apply l2 (by decide) (by decide) (by decide) (by decide)
    (by decide) (by decide) (by decide) (by decide) (by decide) (by decide)]
  rw [macro_eq_apply l3 (by decide) (by decide) (by decide) (by decide)
    (by decide) (by decide) (by decide) (by decide) (by decide) (by decide)]
  rw [macro_eq_apply l4 (by decide) (by decide) (by decide) (by decide)
    (by decide) (by decide) (by decide) (by decide) (by decide) (by decide)]
  rw [macro_eq_apply l5 (by decide) (by decide) (by decide) (by decide)
    (by decide) (by decide) (by decide) (by decide) (by decide) (by decide)]
  rw [macro_eq_apply l6 (by decide) (by decide) (by decide) (by decide)
    (by decide) (by decide) (by decide) (by decide) (by decide) (by decide)]

theorem inner_block_length {s : List Nat} (hs : s.length = 16) :
    (MainSrc.inner_block s).length = 16 := by
  unfold MainSrc.inner_block
  rw [mainsrc_apply_eq]
  exact apply_quarter_round_length 3 4 9 14
    (apply_quarter_round_length 2 7 8 13
      (apply_quarter_round_length 1 6 11 12
        (apply_quarter_round_length 0 5 10 15
          (apply_quarter_round_length 3 7 11 15
            (apply_quarter_round_length 2 6 10 14
              (apply_quarter_round_length 1 5 9 13
                (apply_quarter_round_length 0 4 8 12 hs)))))))

theorem iterate_rounds_eq (n : Nat) {s : List Nat} (hs : s.length = 16) :
    Chacha20.iterate_rounds n s = MainSrc.iterate_rounds n s := by
  induction n generalizing s with
  | zero => rfl
  | succ n ih =>
    show Chacha20.iterate_rounds n (Chacha20.inner_block s) =
      MainSrc.iterate_rounds n (MainSrc.inner_block s)
    rw [inner_block_eq hs]
    exact ih (inner_block_length hs)

theorem add_state_eq : MainSrc.add_state = Chacha20.add_state := rfl

theorem add32_lt (a b : Nat) : Chacha20.add32 a b < 4294967296 :=
  Nat.mod_lt _ (by decide)

theorem xor32_lt {a b : Nat} (ha : a < 4294967296) (hb : b < 4294967296) :
    Chacha20.xor32 a b < 4294967296 := by
  have e : (4294967296 : Nat) = 2 ^ 32 := by norm_num
  rw [e] at ha hb ⊢
  exact Nat.xor_lt_two_pow ha hb

theorem rotl32_lt {a n : Nat} (h : a < 4294967296) :
    Chacha20.rotl32 a n < 4294967296 := by
  have e : (4294967296 : Nat) = 2 ^ 32 := by norm_num
  simp only [Chacha20.rotl32]
  rw [e]
  apply Nat.or_lt_two_pow
  · rw [← e]
    exact Nat.mod_lt _ (by decide)
  · calc Nat.shiftRight a (32 - n) = a / 2 ^ (32 - n) :=
          Nat.shiftRight_eq_div_pow a (32 - n)
      _ ≤ a := Nat.div_le_self a _
      _ < 2 ^ 32 := e ▸ h

theorem qr_bounds (a b c d : Nat)
    (hb : b < 4294967296) (hd : d < 4294967296) :
    (Chacha20.quarter_round a b c d).1 < 4294967296 ∧
    (Chacha20.quarter_round a b c d).2.1 < 4294967296 ∧
    (Chacha20.quarter_round a b c d).2.2.1 < 4294967296 ∧
    (Chacha20.quarter_round a b c d).2.2.2 < 4294967296 := by
  simp only [Chacha20.quarter_round]
  exact ⟨add32_lt _ _,
    rotl32_lt (xor32_lt (rotl32_lt (xor32_lt hb (add32_lt _ _)))
      (add32_lt _ _)),
    add32_lt _ _,
    rotl32_lt (xor32_lt (rotl32_lt (xor32_lt hd (add32_lt _ _)))
      (add32_lt _ _))⟩

theorem block_function_take (key nonce : List Nat) (c : Nat) :
    Chacha20.block_function (key.take 32) c (nonce.take 12) =
      Chacha20.block_function key c nonce := by
  unfold Chacha20.block_function
  rw [setup_key_take]

theorem full_blocks_take (key nonce pt : List Nat) (c n : Nat)
    (enc : List Nat) :
    Chacha20.full_blocks (key.take 32) c (nonce.take 12) pt n enc =
      Chacha20.full_blocks key c nonce pt n enc := by
  induction n generalizing enc with
  | zero => rfl
  | succ j ih =>
    simp only [Chacha20.full_blocks, ih, block_function_take]

theorem chacha20_encrypt_take (key nonce pt : List Nat) (c : Nat) :
    Chacha20.chacha20_encrypt (key.take 32) c (nonce.take 12) pt =
      Chacha20.chacha20_encrypt key c nonce pt := by
  simp only [Chacha20.chacha20_encrypt, full_blocks_take, block_function_take]

/-- C1: the code does not XOR the final partial chunk when the input length
is congruent to 1 modulo 64: the guard `len % 64 != 1` in `chacha20_encrypt`
skips the tail for a one-byte input, so the output byte stays at its zero
initialization, while the chunk rule stated by the claim would give the
nonzero byte `0x01 XOR keystream[0]`. -/
theorem chacha20_encrypt_drops_trailing_byte :
    Chacha20.chacha20_encrypt (List.replicate 32 0) 0 (List.replicate 12 0)
      [1] = some [0] ∧
    (Chacha20.block_function (List.replicate 32 0) 0
        (List.replicate 12 0)).map
      (fun st => Chacha20.xor32 1 ((Chacha20.serialized st).getD 0 0)) ≠
      some 0 := by decide

/-- C2: applying `chacha20_encrypt` twice with identical key, counter and
nonce does not return the original buffer for a one-byte input: both
applications leave the single byte at zero, so a plaintext `[0x01]` comes
back as `[0x00]` and the involution claim fails on the code as written. -/
theorem chacha20_encrypt_double_apply_not_involution :
    ((Chacha20.chacha20_encrypt (List.replicate 32 0) 0 (List.replicate 12 0)
        [1]).bind fun ct =>
      Chacha20.chacha20_encrypt (List.replicate 32 0) 0 (List.replicate 12 0)
        ct) = some [0] ∧
    ((Chacha20.chacha20_encrypt (List.replicate 32 0) 0 (List.replicate 12 0)
        [1]).bind fun ct =>
      Chacha20.chacha20_encrypt (List.replicate 32 0) 0 (List.replicate 12 0)
        ct) ≠ some [1] := by decide

/-- C3 counterexample: a 33-byte key and a 13-byte nonce are not rejected
with any error: `setup_key` succeeds, and the state it builds is exactly the
one for the truncated 32-byte key and 12-byte nonce (silent truncation). -/
theorem setup_key_accepts_oversized_inputs :
    (Chacha20.setup_key (List.range 33) 5 (List.range 13)).isSome = true ∧
    Chacha20.setup_key (List.range 33) 5 (List.range 13) =
      Chacha20.setup_key (List.range 32) 5 (List.range 12) := by decide

/-- C3 (amended): `setup_key` and `chacha20_encrypt` perform no length
validation and have no error type: a key of at least 32 bytes and a nonce of
at least 12 bytes are silently truncated to their first 32 and 12 bytes and
the computation succeeds; a typed invalid-length error is never produced
(too-short inputs panic instead, modelled as `none`). -/
theorem setup_key_truncates_oversized_inputs (key nonce : List Nat) (c : Nat)
    (hk : 32 ≤ key.length) (hn : 12 ≤ nonce.length) :
    Chacha20.setup_key key c nonce =
      Chacha20.setup_key (key.take 32) c (nonce.take 12) ∧
    (Chacha20.setup_key key c nonce).isSome = true ∧
    ∀ pt, Chacha20.chacha20_encrypt key c nonce pt =
      Chacha20.chacha20_encrypt (key.take 32) c (nonce.take 12) pt := by
  refine ⟨(setup_key_take key nonce c).symm, ?_,
    fun pt => (chacha20_encrypt_take key nonce pt c).symm⟩
  rw [setup_key_eq_of_le hk hn]
  rfl

theorem setup_key_truncates_oversized_inputs_witness :
    (Chacha20.setup_key (List.range 33) 0 (List.range 13)).isSome = true :=
  (setup_key_truncates_oversized_inputs (List.range 33) (List.range 13) 0
    (by decide) (by decide)).2.1

/-- C4: `block_function` on the RFC 8439 section 2.3.2 inputs (key 00..1f,
nonce 00 00 00 09 00 00 00 4a 00 00 00 00, counter 1) produces the section
2.3.2 output state, and its little-endian index-order serialization begins
10 f1 e7 e4 d1 3b 59 15. -/
theorem block_function_rfc8439_vector :
    Chacha20.block_function (List.range 32) 1
      [0x00, 0x00, 0x00, 0x09, 0x00, 0x00, 0x00, 0x4a, 0x00, 0x00, 0x00,
       0x00] =
      some [0xe4e7f110, 0x15593bd1, 0x1fdd0f50, 0xc47120a3, 0xc7f4d1c7,
        0x0368c033, 0x9aaa2204, 0x4e6cd4c3, 0x466482d2, 0x09aa9f07,
        0x05d7c214, 0xa2028bd9, 0xd19c12b5, 0xb94e16de, 0xe883d0cb,
        0x4e3c50a2] ∧
    (Chacha20.block_function (List.range 32) 1
      [0x00, 0x00, 0x00, 0x09, 0x00, 0x00, 0x00, 0x4a, 0x00, 0x00, 0x00,
       0x00]).map (fun st => (Chacha20.serialized st).take 8) =
      some [0x10, 0xf1, 0xe7, 0xe4, 0xd1, 0x3b, 0x59, 0x15] := by decide

/-- C5: `chacha20_encrypt` on the 114-byte RFC 8439 sunscreen plaintext with
key 00..1f, nonce 00 00 00 00 00 00 00 4a 00 00 00 00 and initial counter 1
produces exactly the RFC 8439 ciphertext, which begins 6e 2e 35 9a 25 68 f9
80. -/
theorem chacha20_encrypt_sunscreen_vector :
    Chacha20.chacha20_encrypt (List.range 32) 1
      [0x00, 0x00, 0x00, 0x00, 0x00, 0x00, 0x00, 0x4a, 0x00, 0x00, 0x00,
       0x00]
      [0x4c, 0x61, 0x64, 0x69, 0x65, 0x73, 0x20, 0x61, 0x6e, 0x64, 0x20,
       0x47, 0x65, 0x6e, 0x74, 0x6c, 0x65, 0x6d, 0x65, 0x6e, 0x20, 0x6f,
       0x66, 0x20, 0x74, 0x68, 0x65, 0x20, 0x63, 0x6c, 0x61, 0x73, 0x73,
       0x20, 0x6f, 0x66, 0x20, 0x27, 0x39, 0x39, 0x3a, 0x20, 0x49, 0x66,
       0x20, 0x49, 0x20, 0x63, 0x6f, 0x75, 0x6c, 0x64, 0x20, 0x6f, 0x66,
       0x66, 0x65, 0x72, 0x20, 0x79, 0x6f, 0x75, 0x20, 0x6f, 0x6e, 0x6c,
       0x79, 0x20, 0x6f, 0x6e, 0x65, 0x20, 0x74, 0x69, 0x70, 0x20, 0x66,
       0x6f, 0x72, 0x20, 0x74, 0x68, 0x65, 0x20, 0x66, 0x75, 0x74, 0x75,
       0x72, 0x65, 0x2c, 0x20, 0x73, 0x75, 0x6e, 0x73, 0x63, 0x72, 0x65,
       0x65, 0x6e, 0x20, 0x77, 0x6f, 0x75, 0x6c, 0x64, 0x20, 0x62, 0x65,
       0x20, 0x69, 0x74, 0x2e] =
    some [0x6e, 0x2e, 0x35, 0x9a, 0x25, 0x68, 0xf9, 0x80, 0x41, 0xba, 0x07,
      0x28, 0xdd, 0x0d, 0x69, 0x81, 0xe9, 0x7e, 0x7a, 0xec, 0x1d, 0x43,
      0x60, 0xc2, 0x0a, 0x27, 0xaf, 0xcc, 0xfd, 0x9f, 0xae, 0x0b, 0xf9,
      0x1b, 0x65, 0xc5, 0x52, 0x47, 0x33, 0xab, 0x8f, 0x59, 0x3d, 0xab,
      0xcd, 0x62, 0xb3, 0x57, 0x16, 0x39, 0xd6, 0x24, 0xe6, 0x51, 0x52,
      0xab, 0x8f, 0x53, 0x0c, 0x35, 0x9f, 0x08, 0x61, 0xd8, 0x07, 0xca,
      0x0d, 0xbf, 0x50, 0x0d, 0x6a, 0x61, 0x56, 0xa3, 0x8e, 0x08, 0x8a,
      0x22, 0xb6, 0x5e, 0x52, 0xbc, 0x51, 0x4d, 0x16, 0xcc, 0xf8, 0x06,
      0x81, 0x8c, 0xe9, 0x1a, 0xb7, 0x79, 0x37, 0x36, 0x5a, 0xf9, 0x0b,
      0xbf, 0x74, 0xa3, 0x5b, 0xe6, 0xb4, 0x0b, 0x8e, 0xed, 0xf2, 0x78,
      0x5e, 0x42, 0x87, 0x4d] := by decide

/-- C6: for every 32-byte key and 12-byte nonce, `setup_key` returns exactly
the 16-word state with the four magic constants in words 0-3, the eight
little-endian key words in 4-11, the counter in word 12 and the three
little-endian nonce words in 13-15. -/
theorem setup_key_layout (key nonce : List Nat) (c : Nat)
    (hk : key.length = 32) (hn : nonce.length = 12) :
    Chacha20.setup_key key c nonce = some
      [0x61707865, 0x3320646e, 0x79622d32, 0x6b206574,
       word_le_at key 0, word_le_at key 4, word_le_at key 8,
       word_le_at key 12, word_le_at key 16, word_le_at key 20,
       word_le_at key 24, word_le_at key 28, c,
       word_le_at nonce 0, word_le_at nonce 4, word_le_at nonce 8] :=
  setup_key_eq_of_le (by omega) (by omega)

theorem setup_key_layout_witness :
    Chacha20.setup_key (List.range 32) 1
      [0x00, 0x00, 0x00, 0x09, 0x00, 0x00, 0x00, 0x4a, 0x00, 0x00, 0x00,
       0x00] =
      some [0x61707865, 0x3320646e, 0x79622d32, 0x6b206574, 0x03020100,
        0x07060504, 0x0b0a0908, 0x0f0e0d0c, 0x13121110, 0x17161514,
        0x1b1a1918, 0x1f1e1d1c, 0x00000001, 0x09000000, 0x4a000000,
        0x00000000] :=
  (setup_key_layout (List.range 32)
    [0x00, 0x00, 0x00, 0x09, 0x00, 0x00, 0x00, 0x4a, 0x00, 0x00, 0x00, 0x00]
    1 (by decide) (by decide)).trans (by decide)

/-- C7: `quarter_round` is a total pure function on 32-bit words (on inputs
below 2^32 all four outputs stay below 2^32; wrapping addition is the only
overflow behavior), and it reproduces the RFC 8439 section 2.1.1 test
vector. -/
theorem quarter_round_total_and_vector :
    (∀ a b c d : Nat, a < 4294967296 → b < 4294967296 → c < 4294967296 →
      d < 4294967296 →
      (Chacha20.quarter_round a b c d).1 < 4294967296 ∧
      (Chacha20.quarter_round a b c d).2.1 < 4294967296 ∧
      (Chacha20.quarter_round a b c d).2.2.1 < 4294967296 ∧
      (Chacha20.quarter_round a b c d).2.2.2 < 4294967296) ∧
    Chacha20.quarter_round 0x11111111 0x01020304 0x9b8d6f43 0x01234567 =
      (0xea2a92f4, 0xcb1cf8ce, 0x4581472e, 0x5881c4bb) := by
  constructor
  · intro a b c d ha hb hc hd
    exact qr_bounds a b c d hb hd
  · decide

theorem quarter_round_total_and_vector_witness :
    (Chacha20.quarter_round 1 2 3 4).1 < 4294967296 ∧
    (Chacha20.quarter_round 1 2 3 4).2.1 < 4294967296 ∧
    (Chacha20.quarter_round 1 2 3 4).2.2.1 < 4294967296 ∧
    (Chacha20.quarter_round 1 2 3 4).2.2.2 < 4294967296 :=
  quarter_round_total_and_vector.1 1 2 3 4 (by decide) (by decide)
    (by decide) (by decide)

/-- C8: on a 16-word state, `apply_quarter_round` at four distinct in-bounds
indices returns a 16-word state holding the `quarter_round` of the four read
words at those indices and leaving the other twelve positions unchanged. -/
theorem apply_quarter_round_frame (x y z w : Nat) (s : List Nat)
    (hs : s.length = 16) (hx : x < 16) (hy : y < 16) (hz : z < 16)
    (hw : w < 16) (hxy : x ≠ y) (hxz : x ≠ z) (hxw : x ≠ w)
    (hyz : y ≠ z) (hyw : y ≠ w) (hzw : z ≠ w) :
    (Chacha20.apply_quarter_round x y z w s).length = 16 ∧
    (Chacha20.apply_quarter_round x y z w s).getD x 0 =
      (Chacha20.quarter_round (s.getD x 0) (s.getD y 0) (s.getD z 0)
        (s.getD w 0)).1 ∧
    (Chacha20.apply_quarter_round x y z w s).getD y 0 =
      (Chacha20.quarter_round (s.getD x 0) (s.getD y 0) (s.getD z 0)
        (s.getD w 0)).2.1 ∧
    (Chacha20.apply_quarter_round x y z w s).getD z 0 =
      (Chacha20.quarter_round (s.getD x 0) (s.getD y 0) (s.getD z 0)
        (s.getD w 0)).2.2.1 ∧
    (Chacha20.apply_quarter_round x y z w s).getD w 0 =
      (Chacha20.quarter_round (s.getD x 0) (s.getD y 0) (s.getD z 0)
        (s.getD w 0)).2.2.2 ∧
    ∀ i, i < 16 → i ≠ x → i ≠ y → i ≠ z → i ≠ w →
      (Chacha20.apply_quarter_round x y z w s).getD i 0 = s.getD i 0 := by
  have htake : s.take 16 = s := by rw [← hs]; exact List.take_length s
  have hyx : y ≠ x := hxy.symm
  have hzx : z ≠ x := hxz.symm
  have hwx : w ≠ x := hxw.symm
  have hzy : z ≠ y := hyz.symm
  have hwy : w ≠ y := hyw.symm
  have hwz : w ≠ z := hzw.symm
  refine ⟨apply_quarter_round_length x y z w hs, ?_, ?_, ?_, ?_, ?_⟩
  · simp [Chacha20.apply_quarter_round, htake, List.getD_eq_getElem?_getD,
      List.getElem?_set_self, List.getElem?_set_ne, hs, hx, hy, hz, hw,
      hyx, hzx, hwx, hzy, hwy, hwz, hxy, hxz, hxw, hyz, hyw, hzw]
  · simp [Chacha20.apply_quarter_round, htake, List.getD_eq_getElem?_getD,
      List.getElem?_set_self, List.getElem?_set_ne, hs, hx, hy, hz, hw,
      hyx, hzx, hwx, hzy, hwy, hwz, hxy, hxz, hxw, hyz, hyw, hzw]
  · simp [Chacha20.apply_quarter_round, htake, List.getD_eq_getElem?_getD,
      List.getElem?_set_self, List.getElem?_set_ne, hs, hx, hy, hz, hw,
      hyx, hzx, hwx, hzy, hwy, hwz, hxy, hxz, hxw, hyz, hyw, hzw]
  · simp [Chacha20.apply_quarter_round, htake, List.getD_eq_getElem?_getD,
      List.getElem?_set_self, List.getElem?_set_ne, hs, hx, hy, hz, hw,
      hyx, hzx, hwx, hzy, hwy, hwz, hxy, hxz, hxw, hyz, hyw, hzw]
  · intro i hi hix hiy hiz hiw
    have hxi : x ≠ i := fun hh => hix hh.symm
    have hyi : y ≠ i := fun hh => hiy hh.symm
    have hzi : z ≠ i := fun hh => hiz hh.symm
    have hwi : w ≠ i := fun hh => hiw hh.symm
    simp [Chacha20.apply_quarter_round, htake, List.getD_eq_getElem?_getD,
      List.getElem?_set_ne, hxi, hyi, hzi, hwi]

theorem apply_quarter_round_frame_witness :
    (Chacha20.apply_quarter_round 2 7 8 13 sample_state).getD 2 0 =
      (Chacha20.quarter_round (sample_state.getD 2 0) (sample_state.getD 7 0)
        (sample_state.getD 8 0) (sample_state.getD 13 0)).1 ∧
    (Chacha20.apply_quarter_round 2 7 8 13 sample_state).getD 0 0 =
      sample_state.getD 0 0 :=
  ⟨(apply_quarter_round_frame 2 7 8 13 sample_state (by decide) (by decide)
      (by decide) (by decide) (by decide) (by decide) (by decide) (by decide)
      (by decide) (by decide) (by decide)).2.1,
   (apply_quarter_round_frame 2 7 8 13 sample_state (by decide) (by decide)
      (by decide) (by decide) (by decide) (by decide) (by decide) (by decide)
      (by decide) (by decide) (by decide)).2.2.2.2.2 0 (by decide)
      (by decide) (by decide) (by decide) (by decide)⟩

/-- C9 counterexample: with a genuinely all-zero 32-byte key and all-zero
nonce, `block_function` at counter 0 does not produce the 16-word block
claimed (that sequence belongs to the sequential key 00..1f used as the seed
in `test_generate_rng`). -/
theorem block_function_zero_key_mismatch :
    Chacha20.block_function (List.replicate 32 0) 0 (List.replicate 12 0) ≠
      some [2100034873, 1780073945, 1996733837, 1229642936, 1876440458,
        3429555900, 1283312818, 2451892952, 3888915243, 2871222434,
        1777274431, 1686095930, 3929375269, 765720497, 2690787266,
        205609800] := by decide

/-- C9 (amended): `block_function` with the sequential 32-byte key
00,01,..,1f (the seed of `test_generate_rng`) and an all-zero 12-byte nonce,
first at counter 0 and then at counter 1, yields the two 16-word blocks of
the expected 32-word sequence beginning 2100034873, 1780073945, ... -/
theorem block_function_sequential_key_rng_vectors :
    Chacha20.block_function (List.range 32) 0 (List.replicate 12 0) =
      some [2100034873, 1780073945, 1996733837, 1229642936, 1876440458,
        3429555900, 1283312818, 2451892952, 3888915243, 2871222434,
        1777274431, 1686095930, 3929375269, 765720497, 2690787266,
        205609800] ∧
    Chacha20.block_function (List.range 32) 1 (List.replicate 12 0) =
      some [826456088, 3517376173, 1633444115, 659440559, 4126388728,
        1549512161, 318568684, 1551185194, 1829242994, 1564274385,
        609780125, 1006636644, 1593221275, 3461963230, 2135566861,
        3445265713] := by decide

/-- C10: the in-place `block_function` of chacha20.rs (macro_quarter_round)
and the functional `block_function` of main.rs (apply_quarter_round) compute
the same function on every key, counter and nonce. -/
theorem block_function_implementations_agree (key nonce : List Nat)
    (c : Nat) :
    Chacha20.block_function key c nonce = MainSrc.block_function key c nonce
    := by
  unfold Chacha20.block_function MainSrc.block_function
  have hsk : MainSrc.setup_key key c nonce = Chacha20.setup_key key c nonce :=
    rfl
  rw [hsk]
  cases h : Chacha20.setup_key key c nonce with
  | none => simp only [Option.map_none']
  | some st =>
    have hlen : st.length = 16 := setup_key_length_of_some h
    simp only [Option.map_some']
    rw [iterate_rounds_eq 10 hlen, add_state_eq]
